import Mathlib

/-!
Verification development for the dragon-alm traceability record-keeper.

The repository persists Requirement and Design entities in SQLite and keeps
the many-to-many trace links between them in two join tables
(`requirement_designs`, maintained by `SQLiteRequirementRepository`, and
`design_requirements`, maintained by `SQLiteDesignRepository`).  This file
gives a shallow embedding of the persistence core (models, validation
service, the two repositories, the two managers and the two controllers)
and proves or refutes the stated properties of that core.

Modelling conventions, each justified against the source:

* The `requirements` table stores `status.value`, `priority.value` and
  `isoformat` timestamps; `_row_to_requirement` applies the inverse
  conversion on every read (`RequirementStatus(row[...])`,
  `datetime.fromisoformat`).  Since `value` and `isoformat` are injective
  and only values produced by the encoders are ever written, the model
  stores the decoded enumeration members and numeric timestamps directly.
  Likewise `row[x] or ''` in `_row_to_requirement` is the identity on the
  stored strings (the code never writes NULL into those columns).

* `datetime.now()` is modelled by a call counter against an arbitrary
  `timeline : Nat -> Nat` held in the state: the k-th `now()` call of the
  process returns `timeline k`.  Nothing forces two successive calls to
  return equal values, which matches the real clock (microsecond
  resolution, distinct calls).  Theorems quantify over the timeline or
  instantiate it concretely.

* Both repositories open plain `sqlite3.connect` connections and never
  issue `PRAGMA foreign_keys = ON`.  SQLite leaves foreign-key enforcement
  OFF by default, so the `ON DELETE CASCADE` clauses declared in the
  schema never fire: a `DELETE` statement removes rows of its own table
  only.  The model reflects this.  PRIMARY KEY uniqueness, by contrast, is
  always enforced, so duplicate join pairs raise `sqlite3.IntegrityError`.

* Rows are kept in insertion order; `ORDER BY id` is modelled by an
  explicit sort.  The join-row reads (`SELECT design_id FROM
  requirement_designs WHERE requirement_id = ?` and its mirror) carry no
  ORDER BY; the model returns them in insertion order.

* Python `int(...)` on an id suffix is modelled as parsing a non-empty
  digit string (the sign/whitespace tolerance of `int` is irrelevant for
  ids this system writes), and `str.strip()` / `LIKE` case folding are
  modelled with the corresponding ASCII operations.
-/

namespace DragonAlm

/-- Enumeration `RequirementStatus` from `models/enums.py`. -/
inductive RequirementStatus where
  | draft
  | underReview
  | approved
  | implemented
  | obsolete
deriving DecidableEq, Repr

/-- The `.value` string of a `RequirementStatus` member. -/
def RequirementStatus.value : RequirementStatus → String
  | .draft => "Draft"
  | .underReview => "Under Review"
  | .approved => "Approved"
  | .implemented => "Implemented"
  | .obsolete => "Obsolete"

/-- Python `RequirementStatus(s)`: the member with `.value = s`, when any
(otherwise the constructor raises `ValueError`). -/
def RequirementStatus.ofString? (s : String) : Option RequirementStatus :=
  if s = "Draft" then some .draft
  else if s = "Under Review" then some .underReview
  else if s = "Approved" then some .approved
  else if s = "Implemented" then some .implemented
  else if s = "Obsolete" then some .obsolete
  else none

/-- Enumeration `Priority` from `models/enums.py`. -/
inductive Priority where
  | low
  | medium
  | high
  | critical
deriving DecidableEq, Repr

/-- The `.value` string of a `Priority` member. -/
def Priority.value : Priority → String
  | .low => "Low"
  | .medium => "Medium"
  | .high => "High"
  | .critical => "Critical"

/-- Python `Priority(s)`. -/
def Priority.ofString? (s : String) : Option Priority :=
  if s = "Low" then some .low
  else if s = "Medium" then some .medium
  else if s = "High" then some .high
  else if s = "Critical" then some .critical
  else none

/-- The `Requirement` dataclass of `models/requirement.py`.  Timestamps are
clock values (see the header comment); `design_ids` holds the linked design
keys exactly as the repository reads them back from `requirement_designs`. -/
structure Requirement where
  id : String
  title : String
  description : String
  status : RequirementStatus
  priority : Priority
  category : String
  parent_id : Option String
  verification_criteria : String
  design_ids : List Nat
  created_at : Nat
  updated_at : Nat
deriving DecidableEq, Repr

/-- One row of the `requirements` table (all columns except the separately
stored `requirement_designs` join rows). -/
structure ReqRow where
  id : String
  title : String
  description : String
  status : RequirementStatus
  priority : Priority
  category : String
  parent_id : Option String
  verification_criteria : String
  created_at : Nat
  updated_at : Nat
deriving DecidableEq, Repr

/-- Column values the requirement repository writes for an entity. -/
def Requirement.toRow (e : Requirement) : ReqRow :=
  { id := e.id, title := e.title, description := e.description,
    status := e.status, priority := e.priority, category := e.category,
    parent_id := e.parent_id,
    verification_criteria := e.verification_criteria,
    created_at := e.created_at, updated_at := e.updated_at }

/-- `_row_to_requirement` of `sqlite_repository.py`: rebuild the entity from
a row plus the join-row keys read for it. -/
def rowToRequirement (row : ReqRow) (design_ids : List Nat) : Requirement :=
  { id := row.id, title := row.title, description := row.description,
    status := row.status, priority := row.priority,
    category := row.category, parent_id := row.parent_id,
    verification_criteria := row.verification_criteria,
    design_ids := design_ids,
    created_at := row.created_at, updated_at := row.updated_at }

/-- The `Design` dataclass of `models/design.py`.  `id` is `None` until the
store assigns the AUTOINCREMENT key.  The elements of `requirement_ids` are
the requirement keys flowing in from the UI (the dataclass annotation says
`list[int]`, but SQLite columns are dynamically typed and the values stored
are the `REQ-...` keys). -/
structure Design where
  id : Option Nat
  name : String
  description : String
  type : String
  status : String
  created_at : Nat
  updated_at : Nat
  requirement_ids : List String
deriving DecidableEq, Repr

/-- One row of the `designs` table. -/
structure DesignRow where
  id : Nat
  name : String
  description : String
  type : String
  status : String
  created_at : Nat
  updated_at : Nat
deriving DecidableEq, Repr

/-- Exception kinds that can cross a call boundary in the core: the three
`ALMException` subclasses of `exceptions.py` that the core raises, plus the
raw Python exceptions that escape code with no handler (`ValueError` from
an enum constructor, `sqlite3.IntegrityError` from the design repository,
which wraps nothing in try/except). -/
inductive AlmError where
  | validationError (msg : String)
  | databaseError (msg : String)
  | entityNotFoundError (msg : String)
  | valueError (msg : String)
  | integrityError (msg : String)
deriving DecidableEq, Repr

deriving instance DecidableEq for Except

/-- Tests whether an `Except` result is an error (a raised exception). -/
def exceptIsError {ε α : Type} : Except ε α → Bool
  | .error _ => true
  | .ok _ => false

/-- Tests whether an `Except` result is a normal return. -/
def exceptIsOk {ε α : Type} : Except ε α → Bool
  | .error _ => false
  | .ok _ => true

/-- Extracts the normal return value of an `Except`, if any. -/
def exceptGet? {ε α : Type} : Except ε α → Option α
  | .error _ => none
  | .ok a => some a

/-! ### Character-list string helpers

Small structural-recursive versions of the string operations the source
uses, so that every concrete run reduces in the kernel. -/

/-- Strict byte-wise (code-point) comparison of two character lists: the
ordering SQLite BINARY collation gives `ORDER BY id`. -/
def charListLt : List Char → List Char → Bool
  | [], [] => false
  | [], _ :: _ => true
  | _ :: _, [] => false
  | a :: as, b :: bs =>
    if a.toNat < b.toNat then true
    else if b.toNat < a.toNat then false
    else charListLt as bs

/-- Python `s.split(sep)` restricted to the single-character separator
`sep = c`: the maximal runs between occurrences of `c`. -/
def splitOnChar (c : Char) : List Char → List (List Char)
  | [] => [[]]
  | x :: xs =>
    match splitOnChar c xs with
    | [] => if x = c then [[], []] else [[x]]
    | h :: t => if x = c then [] :: h :: t else (x :: h) :: t

/-- Parses a non-empty all-digit character list as a natural number
(the successful case of Python `int(...)` on an id suffix). -/
def digitsToNat? (l : List Char) : Option Nat :=
  if l = [] then none
  else if l.all (fun c => c.isDigit) then
    some (l.foldl (fun acc c => acc * 10 + (c.toNat - ('0').toNat)) 0)
  else none

/-- Python `str.strip()` (ASCII whitespace). -/
def pyStrip (s : String) : String :=
  String.mk (((s.data.dropWhile (fun c => c.isWhitespace)).reverse.dropWhile
    (fun c => c.isWhitespace)).reverse)

/-- Python `s.startswith(p)` (case sensitive). -/
def strStartsWith (s p : String) : Bool :=
  p.data.isPrefixOf s.data

/-- SQLite `id LIKE 'REQ-%'`: LIKE folds ASCII case, so this is a
case-insensitive prefix test. -/
def likeREQ (s : String) : Bool :=
  ("REQ-").data.isPrefixOf (s.data.map (fun c => c.toUpper))

/-- Python `", ".join(errors)`. -/
def joinComma : List String → String
  | [] => ""
  | [x] => x
  | x :: y :: t => x ++ ", " ++ joinComma (y :: t)

/-- Python f-string `f"REQ-{number:03d}"`: the decimal digits of `n`
left-padded with zeros to at least three characters, after `"REQ-"`. -/
def formatReqId (n : Nat) : String :=
  let s := Nat.repr n
  "REQ-" ++ String.mk (List.replicate (3 - s.length) ('0')) ++ s

/-- Duplicate test used to model a PRIMARY KEY violation among the join
rows an `executemany` inserts. -/
def hasDup {α : Type} [BEq α] : List α → Bool
  | [] => false
  | x :: xs => if xs.contains x then true else hasDup xs

/-- Insertion into a list sorted by requirement id (models `ORDER BY id`
under BINARY collation; ids are unique in any state the store creates). -/
def insertByTableId (r : ReqRow) : List ReqRow → List ReqRow
  | [] => [r]
  | x :: xs =>
    if charListLt r.id.data x.id.data then r :: x :: xs
    else x :: insertByTableId r xs

/-- Sort of the `requirements` rows by id (`SELECT * ... ORDER BY id`). -/
def sortByTableId (l : List ReqRow) : List ReqRow :=
  l.foldr insertByTableId []

/-- Insertion into a list of design rows sorted by the integer key. -/
def insertByDesignId (r : DesignRow) : List DesignRow → List DesignRow
  | [] => [r]
  | x :: xs => if r.id < x.id then r :: x :: xs else x :: insertByDesignId r xs

/-- Sort of the `designs` rows by id (`SELECT * FROM designs ORDER BY id`). -/
def sortByDesignId (l : List DesignRow) : List DesignRow :=
  l.foldr insertByDesignId []

/-! ### Database state -/

/-- The persistent state: the two entity tables, the two independently
maintained join tables, the AUTOINCREMENT counter of `designs`, and the
clock (see header).  Join rows are kept in insertion order. -/
structure DB where
  requirements : List ReqRow
  reqDesigns : List (String × Nat)
  designs : List DesignRow
  designReqs : List (Nat × String)
  seqDesign : Nat
  timeline : Nat → Nat
  calls : Nat

/-- Fresh state over a given clock timeline: empty tables, first design
rowid 1, no `now()` call made yet. -/
def DB.init (tl : Nat → Nat) : DB :=
  { requirements := [], reqDesigns := [], designs := [], designReqs := [],
    seqDesign := 1, timeline := tl, calls := 0 }

/-- One `datetime.now()` call: the returned clock value and the state after
the call. -/
def DB.now (db : DB) : Nat × DB :=
  (db.timeline db.calls, { db with calls := db.calls + 1 })

/-! ### SQLiteRequirementRepository (`repositories/sqlite_repository.py`)

Every operation opens its own connection and commits before returning; on
an exception inside the `with` block the whole transaction is rolled back,
so an operation either applies all its table changes or none. -/

/-- Join-row keys `read`/`find_all` collect for a requirement id:
`SELECT design_id FROM requirement_designs WHERE requirement_id = ?`. -/
def reqLinksOf (rd : List (String × Nat)) (id : String) : List Nat :=
  (rd.filter (fun p => p.1 = id)).map (fun p => p.2)

/-- Core of `read`, over exactly the tables it touches. -/
def reqReadCore (rows : List ReqRow) (rd : List (String × Nat))
    (id : String) : Option Requirement :=
  match rows.find? (fun r => r.id = id) with
  | none => none
  | some row => some (rowToRequirement row (reqLinksOf rd id))

/-- `SQLiteRequirementRepository.read`. -/
def reqRead (db : DB) (id : String) : Option Requirement :=
  reqReadCore db.requirements db.reqDesigns id

/-- Core of `find_all`. -/
def reqFindAllCore (rows : List ReqRow) (rd : List (String × Nat)) :
    List Requirement :=
  (sortByTableId rows).map (fun row => rowToRequirement row (reqLinksOf rd row.id))

/-- `SQLiteRequirementRepository.find_all`. -/
def reqFindAll (db : DB) : List Requirement :=
  reqFindAllCore db.requirements db.reqDesigns

/-- `SQLiteRequirementRepository.create`.  The INSERT into `requirements`
violates the primary key when the id is already present, and the
`executemany` into `requirement_designs` violates its primary key when the
entity carries a duplicate design id or a join row with the same pair
already exists (dangling rows survive deletes, see `storeDeleteReq`).
Either `sqlite3.IntegrityError` is caught and re-raised as the
`DatabaseError` below, with the transaction rolled back. -/
def storeCreateReq (db : DB) (e : Requirement) :
    Except AlmError String × DB :=
  if db.requirements.any (fun r => r.id = e.id) then
    (.error (.databaseError
      ("Requirement with ID " ++ e.id ++ " already exists")), db)
  else if hasDup e.design_ids
      ∨ e.design_ids.any (fun d => db.reqDesigns.contains (e.id, d)) then
    (.error (.databaseError
      ("Requirement with ID " ++ e.id ++ " already exists")), db)
  else
    (.ok e.id,
      { db with
        requirements := db.requirements ++ [e.toRow],
        reqDesigns := db.reqDesigns ++ e.design_ids.map (fun d => (e.id, d)) })

/-- The effect of the UPDATE statement of
`SQLiteRequirementRepository.update` on one row: rows whose id matches get
every scalar column except `id` and `created_at` rewritten from the
entity; other rows are untouched. -/
def patchReq (e : Requirement) (r : ReqRow) : ReqRow :=
  if r.id = e.id then
    { r with
      title := e.title, description := e.description,
      status := e.status, priority := e.priority,
      category := e.category, parent_id := e.parent_id,
      verification_criteria := e.verification_criteria,
      updated_at := e.updated_at }
  else r

/-- `SQLiteRequirementRepository.update`.  The method first re-stamps
`entity.updated_at = datetime.now()` itself, then rewrites the scalar
columns of the row (everything except `id` and `created_at`), then
replaces the join rows for this id by delete-then-insert.  The returned
pair carries the mutated entity object (the manager returns that same
object to its caller) and the `cursor.rowcount > 0` result, where
`rowcount` is that of the last statement the cursor ran: the `executemany`
when the new link set is non-empty, otherwise the DELETE. -/
def storeUpdateReq (db : DB) (e : Requirement) :
    Except AlmError (Bool × Requirement) × DB :=
  let t := db.timeline db.calls
  let db1 : DB := { db with calls := db.calls + 1 }
  let e2 : Requirement := { e with updated_at := t }
  if hasDup e2.design_ids then
    (.error (.databaseError
      ("Failed to update requirement: UNIQUE constraint failed: "
        ++ "requirement_designs.requirement_id, "
        ++ "requirement_designs.design_id")), db1)
  else
    let oldLinks := db1.reqDesigns.filter (fun p => p.1 = e2.id)
    let kept := db1.reqDesigns.filter (fun p => ¬ p.1 = e2.id)
    let rowcount :=
      if e2.design_ids.isEmpty then oldLinks.length else e2.design_ids.length
    (.ok (decide (rowcount > 0), e2),
      { db1 with
        requirements := db1.requirements.map (patchReq e2),
        reqDesigns := kept ++ e2.design_ids.map (fun d => (e2.id, d)) })

/-- `SQLiteRequirementRepository.delete`: removes the entity row only.
Foreign keys are not enforced (no `PRAGMA foreign_keys`), so the declared
`ON DELETE CASCADE` of the join tables never fires and every join row
referencing the id stays behind.  Returns whether a row was removed. -/
def storeDeleteReq (db : DB) (id : String) : Bool × DB :=
  (db.requirements.any (fun r => r.id = id),
    { db with requirements := db.requirements.filter (fun r => ¬ r.id = id) })

/-- Core of `get_next_id`, over the only table it reads. -/
def getNextIdCore (rows : List ReqRow) : Except AlmError String :=
  let matching := (rows.map (fun r => r.id)).filter likeREQ
  match matching with
  | [] => .ok ("REQ-001")
  | h :: t =>
    let last := t.foldl (fun a s => if charListLt a.data s.data then s else a) h
    let suffix := (splitOnChar ('-') last.data).getD 1 []
    match digitsToNat? suffix with
    | none =>
      .error (.valueError
        ("invalid literal for int() with base 10: " ++ String.mk suffix))
    | some n => .ok (formatReqId (n + 1))

/-- `SQLiteRequirementRepository.get_next_id`: `"REQ-001"` when no id
matches `LIKE 'REQ-%'`, otherwise the `ORDER BY id DESC LIMIT 1` maximum
with its suffix after the first `-` parsed by `int` and incremented; a
non-numeric suffix raises `ValueError` (uncaught in the source). -/
def getNextId (db : DB) : Except AlmError String :=
  getNextIdCore db.requirements

/-! ### SQLiteDesignRepository (`repositories/sqlite_design_repository.py`)

This repository wraps nothing in try/except: any `sqlite3` error
propagates raw to the caller, with the open transaction rolled back by the
`with` block. -/

/-- Join-row keys `get`/`get_all` collect for a design id. -/
def designLinksOf (dr : List (Nat × String)) (i : Nat) : List String :=
  (dr.filter (fun p => p.1 = i)).map (fun p => p.2)

/-- Core of `get`. -/
def designGetCore (rows : List DesignRow) (dr : List (Nat × String))
    (i : Nat) : Option Design :=
  match rows.find? (fun r => r.id = i) with
  | none => none
  | some row =>
    some { id := some row.id, name := row.name,
           description := row.description, type := row.type,
           status := row.status, created_at := row.created_at,
           updated_at := row.updated_at,
           requirement_ids := designLinksOf dr i }

/-- `SQLiteDesignRepository.get`. -/
def designGet (db : DB) (i : Nat) : Option Design :=
  designGetCore db.designs db.designReqs i

/-- Core of `get_all`. -/
def designGetAllCore (rows : List DesignRow) (dr : List (Nat × String)) :
    List Design :=
  (sortByDesignId rows).map (fun row =>
    { id := some row.id, name := row.name, description := row.description,
      type := row.type, status := row.status, created_at := row.created_at,
      updated_at := row.updated_at,
      requirement_ids := designLinksOf dr row.id })

/-- `SQLiteDesignRepository.get_all`. -/
def designGetAll (db : DB) : List Design :=
  designGetAllCore db.designs db.designReqs

/-- `SQLiteDesignRepository.create`: inserts the row, sets `design.id` to
`cursor.lastrowid` (the AUTOINCREMENT counter, which never reuses a key,
so the fresh id cannot collide with any existing join row), then inserts
one `design_requirements` row per linked requirement.  A duplicated key in
`requirement_ids` violates the join table primary key and the raw
`sqlite3.IntegrityError` escapes with the transaction rolled back. -/
def storeCreateDesign (db : DB) (d : Design) : Except AlmError Design × DB :=
  let newId := db.seqDesign
  if hasDup d.requirement_ids then
    (.error (.integrityError
      ("UNIQUE constraint failed: design_requirements.design_id, "
        ++ "design_requirements.requirement_id")), db)
  else
    (.ok { d with id := some newId },
      { db with
        designs := db.designs ++
          [{ id := newId, name := d.name, description := d.description,
             type := d.type, status := d.status,
             created_at := d.created_at, updated_at := d.updated_at }],
        designReqs := db.designReqs ++
          d.requirement_ids.map (fun r => (newId, r)),
        seqDesign := newId + 1 })

/-- `SQLiteDesignRepository.update`: rewrites the scalar columns (not
`created_at`) of the row matching `design.id`, then replaces this id's
join rows by delete-then-insert.  With `design.id = None` the UPDATE and
DELETE match nothing and a non-empty link set then violates the join
table's NOT NULL constraint.  Duplicate keys in `requirement_ids` violate
its primary key.  Either way the raw error escapes and the transaction is
rolled back.  On success the same entity object is returned unchanged. -/
def storeUpdateDesign (db : DB) (d : Design) : Except AlmError Design × DB :=
  match d.id with
  | none =>
    if d.requirement_ids.isEmpty then (.ok d, db)
    else
      (.error (.integrityError
        ("NOT NULL constraint failed: design_requirements.design_id")), db)
  | some i =>
    if hasDup d.requirement_ids then
      (.error (.integrityError
        ("UNIQUE constraint failed: design_requirements.design_id, "
          ++ "design_requirements.requirement_id")), db)
    else
      (.ok d,
        { db with
          designs := db.designs.map (fun r =>
            if r.id = i then
              { r with
                name := d.name, description := d.description,
                type := d.type, status := d.status,
                updated_at := d.updated_at }
            else r),
          designReqs := (db.designReqs.filter (fun p => ¬ p.1 = i)) ++
            d.requirement_ids.map (fun r => (i, r)) })

/-- `SQLiteDesignRepository.delete`: removes the entity row only (foreign
keys are off, so join rows in both tables survive) and unconditionally
returns `True`. -/
def storeDeleteDesign (db : DB) (i : Nat) : Bool × DB :=
  (true, { db with designs := db.designs.filter (fun r => ¬ r.id = i) })

/-! ### RequirementManager (`managers/requirement_manager.py`) -/

/-- A `status`/`priority` value in a data dictionary: either a raw string
(coerced through the enum constructor, which raises `ValueError` on an
unknown member) or an already-constructed member. -/
inductive EnumArg (α : Type) where
  | str (s : String)
  | val (v : α)
deriving DecidableEq, Repr

/-- The `data` dictionary both manager entry points receive: one optional
slot per key the code ever looks up.  `create_requirement` reads `id` and
the seven field keys; `update_requirement` reads only the seven field
keys.  Neither reads `design_ids`, so a caller-supplied value in that slot
is dead weight (claim C10). -/
structure ReqData where
  id : Option String := none
  title : Option String := none
  description : Option String := none
  status : Option (EnumArg RequirementStatus) := none
  priority : Option (EnumArg Priority) := none
  parent_id : Option (Option String) := none
  category : Option String := none
  verification_criteria : Option String := none
  design_ids : Option (List Nat) := none
deriving DecidableEq, Repr

/-- Coercion of a `status` dictionary entry, as in
`RequirementStatus(data['status']) if isinstance(data['status'], str)`. -/
def coerceStatus : EnumArg RequirementStatus → Except AlmError RequirementStatus
  | .val v => .ok v
  | .str s =>
    match RequirementStatus.ofString? s with
    | some v => .ok v
    | none =>
      .error (.valueError ("\x27" ++ s ++ "\x27 is not a valid RequirementStatus"))

/-- Coercion of a `priority` dictionary entry. -/
def coercePriority : EnumArg Priority → Except AlmError Priority
  | .val v => .ok v
  | .str s =>
    match Priority.ofString? s with
    | some v => .ok v
    | none =>
      .error (.valueError ("\x27" ++ s ++ "\x27 is not a valid Priority"))

/-- `ValidationService.validate_requirement` (`services/validation_service.py`):
accumulates every violation in order.  The two enum-membership checks can
never fire on a well-typed member (`req.status in RequirementStatus` is
always true and no exception arises), so they contribute nothing. -/
def validationErrors (r : Requirement) : List String :=
  (if r.id = "" ∨ ¬ strStartsWith r.id ("REQ-") = true then
    ["ID must start with \x27REQ-\x27"] else [])
  ++ (if ¬ r.id = "" ∧ r.id.length > 20 then
    ["ID must not exceed 20 characters"] else [])
  ++ (if r.title = "" ∨ (pyStrip r.title).length = 0 then
    ["Title is required"] else [])
  ++ (if ¬ r.title = "" ∧ r.title.length > 200 then
    ["Title must not exceed 200 characters"] else [])
  ++ (if ¬ r.category = "" ∧ r.category.length > 50 then
    ["Category must not exceed 50 characters"] else [])

/-- Message of the `ValidationError` both manager entry points raise. -/
def validationMsg (errors : List String) : String :=
  "Validation failed: " ++ joinComma errors

/-- The entity `create_requirement` assembles before validating: id
generation when the `id` key is absent or falsy (the empty string),
defaulting and coercion of `status`/`priority`, `dict.get` defaults for
the remaining fields, and the two separate `datetime.now()` calls that
stamp `created_at` and then `updated_at`.  The `Requirement` constructor
is called without `design_ids`, so the dataclass default `[]` applies. -/
def buildRequirement (db : DB) (d : ReqData) :
    Except AlmError Requirement × DB :=
  let idRes : Except AlmError String :=
    match d.id with
    | none => getNextId db
    | some s => if s = "" then getNextId db else .ok s
  match idRes with
  | .error e => (.error e, db)
  | .ok newId =>
    match (match d.status with
           | none => .ok .draft
           | some a => coerceStatus a : Except AlmError RequirementStatus) with
    | .error e => (.error e, db)
    | .ok st =>
      match (match d.priority with
             | none => .ok .medium
             | some a => coercePriority a : Except AlmError Priority) with
      | .error e => (.error e, db)
      | .ok pr =>
        let c := db.now
        let u := c.2.now
        (.ok { id := newId, title := d.title.getD "",
               description := d.description.getD "",
               status := st, priority := pr,
               category := d.category.getD "",
               parent_id := d.parent_id.getD none,
               verification_criteria := d.verification_criteria.getD "",
               design_ids := [],
               created_at := c.1, updated_at := u.1 }, u.2)

/-- `RequirementManager.create_requirement`: build, validate (raising
`ValidationError` with the joined error list and writing nothing on
failure), then persist through the store and return the entity. -/
def createRequirement (db : DB) (d : ReqData) :
    Except AlmError Requirement × DB :=
  match buildRequirement db d with
  | (.error e, db1) => (.error e, db1)
  | (.ok q, db1) =>
    match validationErrors q with
    | [] =>
      match storeCreateReq db1 q with
      | (.error e, db2) => (.error e, db2)
      | (.ok _, db2) => (.ok q, db2)
    | e0 :: es => (.error (.validationError (validationMsg (e0 :: es))), db1)

/-- The partial merge of `update_requirement`: each of the seven keys
present in `data` overwrites the corresponding field of the entity read
back from the store; absent keys leave the field alone.  String
`status`/`priority` values pass through the enum constructors. -/
def mergeReqData (p : Requirement) (d : ReqData) :
    Except AlmError Requirement :=
  match (match d.status with
         | none => .ok p.status
         | some a => coerceStatus a : Except AlmError RequirementStatus) with
  | .error e => .error e
  | .ok st =>
    match (match d.priority with
           | none => .ok p.priority
           | some a => coercePriority a : Except AlmError Priority) with
    | .error e => .error e
    | .ok pr =>
      .ok { p with
        title := d.title.getD p.title,
        description := d.description.getD p.description,
        status := st, priority := pr,
        category := d.category.getD p.category,
        parent_id := d.parent_id.getD p.parent_id,
        verification_criteria :=
          d.verification_criteria.getD p.verification_criteria }

/-- `RequirementManager.update_requirement`: read (raising
`EntityNotFoundError` when absent), merge the present keys, stamp
`updated_at = datetime.now()`, re-validate (raising `ValidationError` and
writing nothing on failure), then delegate to the store update — which
re-stamps `updated_at` once more — and return the entity object the store
mutated. -/
def updateRequirement (db : DB) (req_id : String) (d : ReqData) :
    Except AlmError Requirement × DB :=
  match reqRead db req_id with
  | none =>
    (.error (.entityNotFoundError ("Requirement " ++ req_id ++ " not found")), db)
  | some p =>
    match mergeReqData p d with
    | .error e => (.error e, db)
    | .ok m =>
      let c := db.now
      let m2 : Requirement := { m with updated_at := c.1 }
      match validationErrors m2 with
      | [] =>
        match storeUpdateReq c.2 m2 with
        | (.error e, db2) => (.error e, db2)
        | (.ok br, db2) => (.ok br.2, db2)
      | e0 :: es =>
        (.error (.validationError (validationMsg (e0 :: es))), c.2)

/-- `RequirementManager.delete_requirement`: direct delegation. -/
def deleteRequirement (db : DB) (req_id : String) : Bool × DB :=
  storeDeleteReq db req_id

/-! ### DesignManager (`managers/design_manager.py`) -/

/-- `DesignManager.create_design`: one `datetime.now()` stamps both
timestamps; `requirement_ids or []` turns an absent (or empty) argument
into the empty list; no field validation happens before persisting. -/
def createDesign (db : DB) (name description type status : String)
    (requirement_ids : Option (List String)) : Except AlmError Design × DB :=
  let c := db.now
  storeCreateDesign c.2
    { id := none, name := name, description := description, type := type,
      status := status, created_at := c.1, updated_at := c.1,
      requirement_ids := requirement_ids.getD [] }

/-- `DesignManager.update_design`: stamps `updated_at = datetime.now()`
and delegates; the caller supplies the complete desired state. -/
def updateDesign (db : DB) (d : Design) : Except AlmError Design × DB :=
  let c := db.now
  storeUpdateDesign c.2 { d with updated_at := c.1 }

/-- `DesignManager.delete_design`: direct delegation. -/
def deleteDesign (db : DB) (i : Nat) : Bool × DB :=
  storeDeleteDesign db i

/-! ### Controllers (`controllers/requirement_controller.py` and
`controllers/design_controller.py`)

The requirement controller converts every exception kind — the dedicated
handlers plus the trailing `except Exception` — into a `(False, message,
None)` outcome.  The design controller has no handlers at all: it forwards
the manager result and lets every exception propagate.  The observer list
is presentation wiring with no bearing on the claims and is not
modelled. -/

/-- Message produced by the handler chain of
`RequirementController.create_requirement` for each exception kind:
`ValidationError` and the generic handler use `str(e)`; `DatabaseError`
and the generic handler add their own prefixes.  `EntityNotFoundError`
has no dedicated handler in `create` and falls to `except Exception`. -/
def createErrMsg : AlmError → String
  | .validationError m => m
  | .databaseError m => "Database error: " ++ m
  | .entityNotFoundError m => "Unexpected error: " ++ m
  | .valueError m => "Unexpected error: " ++ m
  | .integrityError m => "Unexpected error: " ++ m

/-- Message produced by the handler chain of
`RequirementController.update_requirement`, which also catches
`EntityNotFoundError` with `str(e)`. -/
def updateErrMsg : AlmError → String
  | .validationError m => m
  | .databaseError m => "Database error: " ++ m
  | .entityNotFoundError m => m
  | .valueError m => "Unexpected error: " ++ m
  | .integrityError m => "Unexpected error: " ++ m

/-- `RequirementController.create_requirement`: a total
`(success, message, entity)` outcome. -/
def reqControllerCreate (db : DB) (d : ReqData) :
    (Bool × String × Option Requirement) × DB :=
  match createRequirement db d with
  | (.ok r, db2) =>
    ((true, "Requirement " ++ r.id ++ " created successfully", some r), db2)
  | (.error e, db2) => ((false, createErrMsg e, none), db2)

/-- `RequirementController.update_requirement`. -/
def reqControllerUpdate (db : DB) (req_id : String) (d : ReqData) :
    (Bool × String × Option Requirement) × DB :=
  match updateRequirement db req_id d with
  | (.ok r, db2) =>
    ((true, "Requirement " ++ req_id ++ " updated successfully", some r), db2)
  | (.error e, db2) => ((false, updateErrMsg e, none), db2)

/-- `RequirementController.delete_requirement`: returns a
`(success, message)` pair — two components, not three. -/
def reqControllerDelete (db : DB) (req_id : String) : (Bool × String) × DB :=
  match deleteRequirement db req_id with
  | (true, db2) =>
    ((true, "Requirement " ++ req_id ++ " deleted successfully"), db2)
  | (false, db2) => ((false, "Requirement " ++ req_id ++ " not found"), db2)

/-- `DesignController.create_design`: bare delegation, no handler — an
exception from below reaches the caller. -/
def designControllerCreate (db : DB)
    (name description type status : String)
    (requirement_ids : Option (List String)) : Except AlmError Design × DB :=
  createDesign db name description type status requirement_ids

/-- `DesignController.update_design`: bare delegation. -/
def designControllerUpdate (db : DB) (d : Design) :
    Except AlmError Design × DB :=
  updateDesign db d

/-- `DesignController.delete_design`: bare delegation. -/
def designControllerDelete (db : DB) (i : Nat) : Bool × DB :=
  deleteDesign db i

/-! ### Store-level operation alphabet and reachability -/

/-- One operation against either store, as invoked on a live database. -/
inductive StoreOp where
  | rcreate (e : Requirement)
  | rupdate (e : Requirement)
  | rdelete (id : String)
  | dcreate (d : Design)
  | dupdate (d : Design)
  | ddelete (i : Nat)
deriving Repr

/-- The state after one store operation (a failed operation rolls its
transaction back, leaving the tables as they were). -/
def applyOp (db : DB) : StoreOp → DB
  | .rcreate e => (storeCreateReq db e).2
  | .rupdate e => (storeUpdateReq db e).2
  | .rdelete id => (storeDeleteReq db id).2
  | .dcreate d => (storeCreateDesign db d).2
  | .dupdate d => (storeUpdateDesign db d).2
  | .ddelete i => (storeDeleteDesign db i).2

/-- The state a sequence of store operations produces. -/
def runOps (db : DB) (ops : List StoreOp) : DB :=
  ops.foldl applyOp db

/-- Decides whether a state satisfies the spec's relationship invariant:
for every requirement and design read back from the stores, the
requirement lists the design's key if and only if the design lists the
requirement's key. -/
def symmetricAt (db : DB) : Bool :=
  (reqFindAll db).all (fun r =>
    (designGetAll db).all (fun d =>
      match d.id with
      | some i => r.design_ids.contains i == d.requirement_ids.contains r.id
      | none => true))

/-! ### Concrete fixtures for counterexamples and witnesses -/

/-- The identity timeline: the k-th `now()` call returns `k`. -/
def tlId : Nat → Nat := fun n => n

/-- A data dictionary carrying only a valid title. -/
def reqDataT : ReqData := { title := some ("T") }

/-- A plain unlinked design, as the manager builds it before persisting. -/
def designD0 : Design :=
  { id := none, name := "N", description := "Doc", type := "Component",
    status := "Draft", created_at := 0, updated_at := 0,
    requirement_ids := [] }

/-- A requirement entity linked to design key 1 on its own side only. -/
def reqLinked : Requirement :=
  { id := "REQ-001", title := "T", description := "", status := .draft,
    priority := .medium, category := "", parent_id := none,
    verification_criteria := "", design_ids := [1],
    created_at := 0, updated_at := 0 }

/-- A design entity linked to `REQ-001` on its own side. -/
def designLinked : Design := { designD0 with requirement_ids := ["REQ-001"] }

/-- A store state in which `REQ-001` and design 1 are linked consistently
in both join tables: design 1 created with `requirement_ids = [REQ-001]`,
then `REQ-001` created with `design_ids = [1]`. -/
def dbLinkedBoth : DB :=
  runOps (DB.init tlId) [.dcreate designLinked, .rcreate reqLinked]

/-! ### Shared helper lemmas about the join tables -/

theorem reqLinksOf_append (a b : List (String × Nat)) (id : String) :
    reqLinksOf (a ++ b) id = reqLinksOf a id ++ reqLinksOf b id := by
  simp [reqLinksOf, List.filter_append]

theorem reqLinksOf_erased (l : List (String × Nat)) (id : String) :
    reqLinksOf (l.filter (fun p => ¬ p.1 = id)) id = [] := by
  induction l with
  | nil => rfl
  | cons x xs ih =>
    by_cases h : x.1 = id <;> simp [reqLinksOf, List.filter_cons, h] at ih ⊢

theorem reqLinksOf_map_self (id : String) (ds : List Nat) :
    reqLinksOf (ds.map (fun d => (id, d))) id = ds := by
  induction ds with
  | nil => rfl
  | cons d t ih => simpa [reqLinksOf, List.filter_cons] using ih

theorem reqLinksOf_keep_insert (l : List (String × Nat)) (id : String)
    (ds : List Nat) :
    reqLinksOf ((l.filter (fun p => ¬ p.1 = id)) ++ ds.map (fun d => (id, d)))
      id = ds := by
  rw [reqLinksOf_append, reqLinksOf_erased, reqLinksOf_map_self]
  rfl

theorem designLinksOf_append (a b : List (Nat × String)) (i : Nat) :
    designLinksOf (a ++ b) i = designLinksOf a i ++ designLinksOf b i := by
  simp [designLinksOf, List.filter_append]

theorem designLinksOf_erased (l : List (Nat × String)) (i : Nat) :
    designLinksOf (l.filter (fun p => ¬ p.1 = i)) i = [] := by
  induction l with
  | nil => rfl
  | cons x xs ih =>
    by_cases h : x.1 = i <;> simp [designLinksOf, List.filter_cons, h] at ih ⊢

theorem designLinksOf_map_self (i : Nat) (rs : List String) :
    designLinksOf (rs.map (fun r => (i, r))) i = rs := by
  induction rs with
  | nil => rfl
  | cons r t ih => simpa [designLinksOf, List.filter_cons] using ih

theorem designLinksOf_keep_insert (l : List (Nat × String)) (i : Nat)
    (rs : List String) :
    designLinksOf ((l.filter (fun p => ¬ p.1 = i)) ++ rs.map (fun r => (i, r)))
      i = rs := by
  rw [designLinksOf_append, designLinksOf_erased, designLinksOf_map_self]
  rfl

/-! ### Claim C1 — link symmetry across the two join tables -/

/-- Claim C1 is false: the state reached from an empty store by creating a
design (assigned key 1) and then creating requirement `REQ-001` with
`design_ids = [1]` — two plain store operations — violates the symmetry
invariant: `read("REQ-001").design_ids` contains 1 while
`get(1).requirement_ids` does not contain `"REQ-001"`, because the
requirement store writes `requirement_designs` only and never mirrors the
link into `design_requirements`. -/
theorem claim_C1_counterexample :
    symmetricAt (runOps (DB.init tlId) [.dcreate designD0, .rcreate reqLinked])
      = false ∧
    (reqRead (runOps (DB.init tlId) [.dcreate designD0, .rcreate reqLinked])
        ("REQ-001")).map (fun r => r.design_ids) = some [1] ∧
    (designGet (runOps (DB.init tlId) [.dcreate designD0, .rcreate reqLinked])
        1).map (fun d => d.requirement_ids) = some [] := by
  exact ⟨by decide, by decide, by decide⟩

/-- Amended claim C1: each store maintains only its own direction of the
relationship.  A requirement-store create/update/delete leaves every
design read-back unchanged, and a design-store create/update/delete leaves
every requirement read-back unchanged; after a successful update on either
side, that side's own join rows for the entity equal exactly the supplied
link set.  Cross-direction symmetry is therefore not preserved by the
store operations (the two directions agree only when callers write both
sides consistently). -/
theorem claim_C1_amended :
    (∀ (db : DB) (e : Requirement) (i : Nat),
      designGet ((storeCreateReq db e).2) i = designGet db i ∧
      designGet ((storeUpdateReq db e).2) i = designGet db i) ∧
    (∀ (db : DB) (id : String) (i : Nat),
      designGet ((storeDeleteReq db id).2) i = designGet db i) ∧
    (∀ (db : DB) (d : Design) (id : String),
      reqRead ((storeCreateDesign db d).2) id = reqRead db id ∧
      reqRead ((storeUpdateDesign db d).2) id = reqRead db id) ∧
    (∀ (db : DB) (i : Nat) (id : String),
      reqRead ((storeDeleteDesign db i).2) id = reqRead db id) ∧
    (∀ (db : DB) (e : Requirement),
      exceptIsOk (storeUpdateReq db e).1 = true →
      reqLinksOf ((storeUpdateReq db e).2).reqDesigns e.id = e.design_ids) ∧
    (∀ (db : DB) (d : Design) (i : Nat),
      d.id = some i →
      exceptIsOk (storeUpdateDesign db d).1 = true →
      designLinksOf ((storeUpdateDesign db d).2).designReqs i
        = d.requirement_ids) := by
  refine ⟨?_, ?_, ?_, ?_, ?_, ?_⟩
  · intro db e i
    constructor
    · simp only [storeCreateReq]
      split
      · rfl
      · split <;> rfl
    · simp only [storeUpdateReq]
      split <;> rfl
  · intro db id i
    rfl
  · intro db d id
    constructor
    · simp only [storeCreateDesign]
      split <;> rfl
    · simp only [storeUpdateDesign]
      split
      · split <;> rfl
      · split <;> rfl
  · intro db i id
    rfl
  · intro db e h
    by_cases hd : hasDup e.design_ids
    · simp [storeUpdateReq, hd, exceptIsOk] at h
    · simp only [storeUpdateReq, hd, if_false, Bool.false_eq_true] at h ⊢
      exact reqLinksOf_keep_insert _ _ _
  · intro db d i hi h
    by_cases hd : hasDup d.requirement_ids
    · simp [storeUpdateDesign, hi, hd, exceptIsOk] at h
    · simp only [storeUpdateDesign, hi, hd, if_false, Bool.false_eq_true] at h ⊢
      exact designLinksOf_keep_insert _ _ _

/-- Witness for the amended claim C1 at concrete inputs: updating
`REQ-001` (stored linked to design 1) leaves design 1's read-back
untouched, and the requirement's own join rows become exactly the supplied
set. -/
theorem claim_C1_amended_witness :
    (designGet ((storeUpdateReq dbLinkedBoth reqLinked).2) 1
      = designGet dbLinkedBoth 1) ∧
    (reqLinksOf ((storeUpdateReq dbLinkedBoth reqLinked).2).reqDesigns
      reqLinked.id = reqLinked.design_ids) ∧
    (designLinksOf ((storeUpdateDesign dbLinkedBoth
        { designLinked with id := some 1 }).2).designReqs 1
      = designLinked.requirement_ids) := by
  refine ⟨(claim_C1_amended.1 dbLinkedBoth reqLinked 1).2, ?_, ?_⟩
  · exact claim_C1_amended.2.2.2.2.1 dbLinkedBoth reqLinked (by decide)
  · exact claim_C1_amended.2.2.2.2.2 dbLinkedBoth
      { designLinked with id := some 1 } 1 rfl (by decide)

/-! ### Claim C2 — referential cleanup on delete -/

/-- Claim C2 evaluated at its failing input.  In the state where design 1
and requirement `REQ-001` are consistently linked in both join tables:
deleting design 1 removes the design row (it is no longer readable) but
`REQ-001` still reads back with 1 in `design_ids` — the dangling
`requirement_designs` row survives because neither delete touches the
other table and the schema's `ON DELETE CASCADE` never fires without
`PRAGMA foreign_keys = ON`.  Symmetrically, deleting `REQ-001` leaves both
the `requirement_designs` row and the `design_requirements` row
referencing it in place. -/
theorem claim_C2_theorem :
    (designGet ((storeDeleteDesign dbLinkedBoth 1).2) 1 = none ∧
      (reqRead ((storeDeleteDesign dbLinkedBoth 1).2) ("REQ-001")).map
        (fun r => r.design_ids) = some [1]) ∧
    (reqRead ((storeDeleteReq dbLinkedBoth ("REQ-001")).2) ("REQ-001") = none ∧
      ((storeDeleteReq dbLinkedBoth ("REQ-001")).2).reqDesigns
        = [("REQ-001", 1)] ∧
      ((storeDeleteReq dbLinkedBoth ("REQ-001")).2).designReqs
        = [(1, "REQ-001")]) := by
  exact ⟨⟨by decide, by decide⟩, by decide, by decide, by decide⟩

/-! ### Claim C3 — requirement id allocation -/

/-- Claim C3: `get_next_id` returns `REQ-001` on an empty store; three
manager creates with no supplied id from an empty store are assigned
`REQ-001`, `REQ-002`, `REQ-003` in turn; after an explicit `REQ-050` the
next auto-allocated id is `REQ-051`; and after `REQ-099` the allocator
rolls to `REQ-100` (the suffix is re-padded to at least three digits). -/
theorem claim_C3 :
    (∀ db : DB, db.requirements = [] → getNextId db = .ok ("REQ-001")) ∧
    ((exceptGet? (createRequirement (DB.init tlId) reqDataT).1).map
        (fun r => r.id) = some ("REQ-001") ∧
      (exceptGet? (createRequirement
          (createRequirement (DB.init tlId) reqDataT).2 reqDataT).1).map
        (fun r => r.id) = some ("REQ-002") ∧
      (exceptGet? (createRequirement
          (createRequirement
            (createRequirement (DB.init tlId) reqDataT).2 reqDataT).2
          reqDataT).1).map
        (fun r => r.id) = some ("REQ-003")) ∧
    ((exceptGet? (createRequirement
          (createRequirement (DB.init tlId)
            { reqDataT with id := some ("REQ-050") }).2 reqDataT).1).map
        (fun r => r.id) = some ("REQ-051")) ∧
    (getNextId (createRequirement (DB.init tlId)
        { reqDataT with id := some ("REQ-099") }).2 = .ok ("REQ-100")) := by
  refine ⟨?_, ⟨by decide, by decide, by decide⟩, by decide, ?_⟩
  · intro db h
    unfold getNextId getNextIdCore
    rw [h]
    rfl
  · rfl

/-- Witness for claim C3: its universally quantified clause applied at the
concrete empty store. -/
theorem claim_C3_witness : getNextId (DB.init tlId) = .ok ("REQ-001") :=
  claim_C3.1 (DB.init tlId) rfl

/-! ### Claim C4 — create-validation atomicity -/

theorem buildRequirement_frame (db : DB) (d : ReqData) :
    ((buildRequirement db d).2).requirements = db.requirements ∧
    ((buildRequirement db d).2).reqDesigns = db.reqDesigns := by
  simp only [buildRequirement]
  repeat' split
  all_goals exact ⟨rfl, rfl⟩

theorem storeCreateReq_ok_rows (db : DB) (e : Requirement) :
    exceptIsOk (storeCreateReq db e).1 = true →
    ((storeCreateReq db e).2).requirements = db.requirements ++ [e.toRow] := by
  intro h
  simp only [storeCreateReq] at h ⊢
  by_cases h1 : db.requirements.any (fun r => r.id = e.id) = true
  · rw [if_pos h1] at h
    simp [exceptIsOk] at h
  · rw [if_neg h1] at h ⊢
    by_cases h2 : (hasDup e.design_ids
        ∨ e.design_ids.any (fun d => db.reqDesigns.contains (e.id, d)))
    · rw [if_pos h2] at h
      simp [exceptIsOk] at h
    · rw [if_neg h2]

/-- The entity the manager merges for a given create call, when the call
gets as far as building one (id generation and enum coercion succeed). -/
theorem claim_C4 :
    ∀ (db : DB) (d : ReqData) (q : Requirement),
    exceptGet? (buildRequirement db d).1 = some q →
    ((¬ validationErrors q = [] →
        (createRequirement db d).1 =
          .error (.validationError (validationMsg (validationErrors q))) ∧
        reqFindAll (createRequirement db d).2 = reqFindAll db) ∧
      (∀ r, exceptGet? (createRequirement db d).1 = some r →
        r = q ∧ validationErrors r = [] ∧
        r.toRow ∈ ((createRequirement db d).2).requirements)) := by
  intro db d q hq
  cases hb : buildRequirement db d with
  | mk res db1 =>
    rw [hb] at hq
    have hreq : db1.requirements = db.requirements := by
      have h0 := (buildRequirement_frame db d).1
      rw [hb] at h0
      exact h0
    have hrd : db1.reqDesigns = db.reqDesigns := by
      have h0 := (buildRequirement_frame db d).2
      rw [hb] at h0
      exact h0
    cases res with
    | error e => simp [exceptGet?] at hq
    | ok a =>
      simp only [exceptGet?, Option.some.injEq] at hq
      subst hq
      constructor
      · intro hne
        cases hv : validationErrors a with
        | nil => exact absurd hv hne
        | cons e0 es =>
          constructor
          · simp only [createRequirement, hb, hv]
          · simp only [createRequirement, hb, hv]
            unfold reqFindAll
            rw [hreq, hrd]
      · intro r hr
        cases hv : validationErrors a with
        | cons e0 es => simp [createRequirement, hb, hv, exceptGet?] at hr
        | nil =>
          simp only [createRequirement, hb, hv] at hr ⊢
          cases hs : storeCreateReq db1 a with
          | mk res2 db2 =>
            cases res2 with
            | error e =>
              rw [hs] at hr
              simp [exceptGet?] at hr
            | ok v =>
              rw [hs] at hr
              simp only [exceptGet?, Option.some.injEq] at hr
              subst hr
              have hrows := storeCreateReq_ok_rows db1 a
              rw [hs] at hrows
              refine ⟨rfl, hv, ?_⟩
              rw [hrows (by simp [exceptIsOk])]
              simp

/-- The merged entity of the empty-title witness run: id generated as
`REQ-001`, defaults applied, timestamps from clock ticks 0 and 1. -/
def builtEmptyTitle : Requirement :=
  { id := "REQ-001", title := "", description := "", status := .draft,
    priority := .medium, category := "", parent_id := none,
    verification_criteria := "", design_ids := [],
    created_at := 0, updated_at := 1 }

/-- The entity the valid-title witness run builds and persists. -/
def builtTitleT : Requirement := { builtEmptyTitle with title := "T" }

/-- Witness for claim C4: from the empty store, creating with
`title = ""` raises `ValidationError` with the joined error list and
leaves `find_all` unchanged, while creating with a valid title persists
and returns the built entity. -/
theorem claim_C4_witness :
    ((createRequirement (DB.init tlId) { title := some ("") }).1 =
        .error (.validationError
          (validationMsg (validationErrors builtEmptyTitle))) ∧
      reqFindAll (createRequirement (DB.init tlId) { title := some ("") }).2
        = reqFindAll (DB.init tlId)) ∧
    (builtTitleT = builtTitleT ∧ validationErrors builtTitleT = [] ∧
      builtTitleT.toRow ∈
        ((createRequirement (DB.init tlId) reqDataT).2).requirements) := by
  refine ⟨(claim_C4 (DB.init tlId) { title := some ("") } builtEmptyTitle
      (by decide)).1 (by decide),
    (claim_C4 (DB.init tlId) reqDataT builtTitleT (by decide)).2
      builtTitleT (by decide)⟩

/-! ### Claim C5 — controller error boundary -/

/-- Claim C5 is false for the Design controller: it has no handler at all,
so a `create_design` whose link insertion violates the join-table primary
key (a duplicated requirement key in the list) lets the raw
`sqlite3.IntegrityError` propagate to the caller instead of returning a
`(False, message, None)` outcome. -/
theorem claim_C5_counterexample :
    exceptIsError ((designControllerCreate (DB.init tlId) ("N") ("Doc")
      ("Component") ("Draft") (some [("REQ-001"), ("REQ-001")])).1) = true := by
  decide

/-- Amended claim C5: only the Requirement controller's create and update
return the `(succeeded, humanMessage, entityOrAbsent)` triple, converting
every error kind — the dedicated handlers plus the trailing generic
handler, which also catches unexpected failures such as the `ValueError`
of a bad enum string — into a `(false, message, none)` outcome; its delete
returns a `(success, message)` pair mirroring the store's deletion flag.
The Design controller's write operations are bare delegations with no
handler: results and exceptions reach the caller unconverted. -/
theorem claim_C5_amended :
    (∀ (db : DB) (d : ReqData),
      (((reqControllerCreate db d).1).1 = true ∧
        (∃ r, ((reqControllerCreate db d).1).2.2 = some r)) ∨
      (((reqControllerCreate db d).1).1 = false ∧
        ((reqControllerCreate db d).1).2.2 = none)) ∧
    (∀ (db : DB) (d : ReqData) (e : AlmError),
      (createRequirement db d).1 = .error e →
      (reqControllerCreate db d).1 = (false, createErrMsg e, none)) ∧
    (∀ (db : DB) (id : String) (d : ReqData) (e : AlmError),
      (updateRequirement db id d).1 = .error e →
      (reqControllerUpdate db id d).1 = (false, updateErrMsg e, none)) ∧
    (∀ (db : DB) (id : String),
      ((reqControllerDelete db id).1).1 = (deleteRequirement db id).1) ∧
    (∀ (db : DB) (n de ty st : String) (rid : Option (List String)),
      designControllerCreate db n de ty st rid = createDesign db n de ty st rid) ∧
    (∀ (db : DB) (d : Design),
      designControllerUpdate db d = updateDesign db d) ∧
    ((reqControllerCreate (DB.init tlId)
        { title := some ("T"), status := some (.str ("Bogus")) }).1 =
      (false, "Unexpected error: \x27Bogus\x27 is not a valid RequirementStatus",
        none)) := by
  refine ⟨?_, ?_, ?_, ?_, fun _ _ _ _ _ _ => rfl, fun _ _ => rfl, by decide⟩
  · intro db d
    unfold reqControllerCreate
    cases hb : createRequirement db d with
    | mk res db2 =>
      cases res with
      | error e => right; exact ⟨rfl, rfl⟩
      | ok r => left; exact ⟨rfl, r, rfl⟩
  · intro db d e h
    unfold reqControllerCreate
    cases hb : createRequirement db d with
    | mk res db2 =>
      rw [hb] at h
      cases res with
      | error e2 => cases h; rfl
      | ok r => simp at h
  · intro db id d e h
    unfold reqControllerUpdate
    cases hb : updateRequirement db id d with
    | mk res db2 =>
      rw [hb] at h
      cases res with
      | error e2 => cases h; rfl
      | ok r => simp at h
  · intro db id
    unfold reqControllerDelete
    cases hb : deleteRequirement db id with
    | mk flag db2 =>
      cases flag <;> rfl

/-- Witness for the amended claim C5: the error-conversion clauses applied
at concrete failing calls (empty-title create, update of a missing id). -/
theorem claim_C5_amended_witness :
    (reqControllerCreate (DB.init tlId) { title := some ("") }).1 =
      (false, createErrMsg (.validationError
        (validationMsg (validationErrors builtEmptyTitle))), none) ∧
    (reqControllerUpdate (DB.init tlId) ("REQ-009") reqDataT).1 =
      (false, updateErrMsg (.entityNotFoundError
        ("Requirement " ++ "REQ-009" ++ " not found")), none) := by
  refine ⟨claim_C5_amended.2.1 (DB.init tlId) { title := some ("") } _ (by decide),
    claim_C5_amended.2.2.1 (DB.init tlId) ("REQ-009") reqDataT _ (by decide)⟩

/-! ### Claim C6 — partial-update frame property -/

theorem patchReq_id (e : Requirement) (r : ReqRow) : (patchReq e r).id = r.id := by
  unfold patchReq
  split <;> rfl

theorem find?_map_patch (rows : List ReqRow) (id : String)
    (u : ReqRow → ReqRow) (hid : ∀ r, (u r).id = r.id) :
    (rows.map u).find? (fun r => r.id = id) =
      (rows.find? (fun r => r.id = id)).map u := by
  induction rows with
  | nil => rfl
  | cons x xs ih =>
    by_cases hx : x.id = id
    · simp [List.find?, hid x, hx]
    · simp [List.find?, hid x, hx, ih]

/-- Field content of a successful partial merge: untouched fields keep the
read-back value, supplied fields take the supplied value. -/
theorem mergeReqData_ok_fields (p : Requirement) (d : ReqData) (m : Requirement)
    (h : mergeReqData p d = .ok m) :
    m.id = p.id ∧ m.created_at = p.created_at ∧ m.updated_at = p.updated_at ∧
    m.design_ids = p.design_ids ∧
    m.title = d.title.getD p.title ∧
    m.description = d.description.getD p.description ∧
    m.category = d.category.getD p.category ∧
    m.parent_id = d.parent_id.getD p.parent_id ∧
    m.verification_criteria =
      d.verification_criteria.getD p.verification_criteria ∧
    (d.status = none → m.status = p.status) ∧
    (d.priority = none → m.priority = p.priority) ∧
    (∀ v, d.status = some (.val v) → m.status = v) ∧
    (∀ v, d.priority = some (.val v) → m.priority = v) := by
  unfold mergeReqData at h
  split at h
  · simp at h
  · next st hst =>
    split at h
    · simp at h
    · next pr hpr =>
      cases h
      refine ⟨rfl, rfl, rfl, rfl, rfl, rfl, rfl, rfl, rfl, ?_, ?_, ?_, ?_⟩
      · intro h0
        rw [h0] at hst
        cases hst
        rfl
      · intro h0
        rw [h0] at hpr
        cases hpr
        rfl
      · intro v h0
        rw [h0] at hst
        simp [coerceStatus] at hst
        exact hst.symm
      · intro v h0
        rw [h0] at hpr
        simp [coercePriority] at hpr
        exact hpr.symm

/-- Shape of a successful store update: the returned entity is the input
with `updated_at` re-stamped from the store's own clock call, the rows are
the patched rows, and the join rows for this id are replaced. -/
theorem storeUpdateReq_ok_result (db : DB) (e : Requirement)
    (br : Bool × Requirement) (db2 : DB)
    (h : storeUpdateReq db e = (.ok br, db2)) :
    br.2 = { e with updated_at := db.timeline db.calls } ∧
    db2.requirements =
      db.requirements.map (patchReq { e with updated_at := db.timeline db.calls }) ∧
    db2.reqDesigns =
      (db.reqDesigns.filter (fun q => ¬ q.1 = e.id)) ++
        e.design_ids.map (fun x => (e.id, x)) ∧
    db2.designs = db.designs ∧ db2.designReqs = db.designReqs ∧
    hasDup e.design_ids = false := by
  by_cases hnd : hasDup e.design_ids = true
  · simp [storeUpdateReq, hnd] at h
  · simp only [storeUpdateReq, hnd, Bool.false_eq_true, if_false,
      Prod.mk.injEq, Except.ok.injEq] at h
    obtain ⟨h1, h2⟩ := h
    subst h2
    refine ⟨?_, rfl, rfl, rfl, rfl, by simpa using hnd⟩
    rw [← h1]

/-- Read-back after a successful store update: the row is found (when it
was present before) and carries the patched scalars with its own
`created_at`, and the links are exactly the new set. -/
theorem reqRead_after_storeUpdate (db : DB) (e : Requirement) (row : ReqRow)
    (hrow : db.requirements.find? (fun r => r.id = e.id) = some row)
    (br : Bool × Requirement) (db2 : DB)
    (h : storeUpdateReq db e = (.ok br, db2)) :
    reqRead db2 e.id =
      some { e with updated_at := db.timeline db.calls,
                    created_at := row.created_at } := by
  obtain ⟨hbr, hrows, hlinks, _, _, hnd⟩ := storeUpdateReq_ok_result db e br db2 h
  have hid : row.id = e.id := by
    have h0 := List.find?_some hrow
    simpa using h0
  unfold reqRead reqReadCore
  rw [hrows, hlinks, find?_map_patch _ _ _ (patchReq_id _), hrow]
  simp only [reqLinksOf_keep_insert]
  simp [patchReq, rowToRequirement, hid]

/-- Claim C6: a manager update applies only the keys present in the
payload.  For every stored requirement `p` and successful update returning
`r`: every field whose key is absent keeps its prior stored value, `id`,
`created_at` and `design_ids` are always preserved, a supplied status
member is applied, `updated_at` is re-stamped (to the second clock tick of
the call — the store's own stamp), and the stored read-back equals `r`. -/
theorem claim_C6 :
    ∀ (db : DB) (req_id : String) (d : ReqData) (p r : Requirement),
    reqRead db req_id = some p →
    exceptGet? (updateRequirement db req_id d).1 = some r →
    (d.title = none → r.title = p.title) ∧
    (d.description = none → r.description = p.description) ∧
    (d.status = none → r.status = p.status) ∧
    (d.priority = none → r.priority = p.priority) ∧
    (d.category = none → r.category = p.category) ∧
    (d.parent_id = none → r.parent_id = p.parent_id) ∧
    (d.verification_criteria = none →
      r.verification_criteria = p.verification_criteria) ∧
    r.id = p.id ∧ r.created_at = p.created_at ∧
    r.design_ids = p.design_ids ∧
    (∀ v, d.status = some (.val v) → r.status = v) ∧
    r.updated_at = db.timeline (db.calls + 1) ∧
    reqRead (updateRequirement db req_id d).2 req_id = some r := by
  intro db req_id d p r hp hr
  simp only [updateRequirement, hp, DB.now] at hr ⊢
  cases hm : mergeReqData p d with
  | error e =>
    rw [hm] at hr
    simp [exceptGet?] at hr
  | ok m =>
    rw [hm] at hr
    dsimp only at hr ⊢
    obtain ⟨hmid, hmc, hmu, hmdes, hmt, hmdesc, hmcat, hmpar, hmver,
      hst0, hpr0, hstv, hprv⟩ := mergeReqData_ok_fields p d m hm
    cases hv : validationErrors { m with updated_at := db.timeline db.calls } with
    | cons e0 es =>
      rw [hv] at hr
      simp [exceptGet?] at hr
    | nil =>
      rw [hv] at hr
      cases hs : storeUpdateReq { db with calls := db.calls + 1 }
          { m with updated_at := db.timeline db.calls } with
      | mk res2 db2 =>
        rw [hs] at hr
        try dsimp only at hr ⊢
        cases res2 with
        | error e => simp [exceptGet?] at hr
        | ok br =>
          simp only [exceptGet?, Option.some.injEq] at hr
          obtain ⟨hbr, hrows, hlinks, _, _, hnd⟩ :=
            storeUpdateReq_ok_result _ _ _ _ hs
          have hp2 := hp
          unfold reqRead reqReadCore at hp2
          cases hf : db.requirements.find? (fun r => r.id = req_id) with
          | none =>
            rw [hf] at hp2
            simp at hp2
          | some row =>
            rw [hf] at hp2
            simp only [Option.some.injEq] at hp2
            have hrowid : row.id = req_id := by
              have h0 := List.find?_some hf
              simpa using h0
            have hpid : p.id = req_id := by
              rw [← hp2]
              simpa [rowToRequirement] using hrowid
            have hpcre : p.created_at = row.created_at := by
              rw [← hp2]
              rfl
            have hmid2 : ({ m with updated_at := db.timeline db.calls } :
                Requirement).id = req_id := by
              have h0 : m.id = req_id := by rw [hmid]; exact hpid
              simpa using h0
            have hrb := reqRead_after_storeUpdate
              { db with calls := db.calls + 1 }
              { m with updated_at := db.timeline db.calls }
              row (by rw [hmid2]; exact hf) br db2 hs
            rw [← hr, hbr]
            refine ⟨fun h0 => by simp [hmt, h0],
              fun h0 => by simp [hmdesc, h0],
              fun h0 => by simp [hst0 h0],
              fun h0 => by simp [hpr0 h0],
              fun h0 => by simp [hmcat, h0],
              fun h0 => by simp [hmpar, h0],
              fun h0 => by simp [hmver, h0],
              by simp [hmid],
              by simp [hmc],
              by simp [hmdes],
              fun v h0 => by simp [hstv v h0],
              by simp, ?_⟩
            rw [hmid2] at hrb
            rw [hrb]
            simp [hmc, hpcre, hmid, hpid]

/-- The result of updating stored `REQ-001` with only a status key:
status changed, `updated_at` re-stamped to clock tick 1, everything else
as stored. -/
def reqApproved : Requirement :=
  { reqLinked with status := .approved, updated_at := 1 }

/-- Witness for claim C6 at a concrete input: updating `REQ-001` with only
`{status: Approved}` leaves title, category and the link set unchanged,
sets the status, and the store read-back equals the returned entity. -/
theorem claim_C6_witness :
    reqApproved.title = reqLinked.title ∧
    reqApproved.category = reqLinked.category ∧
    reqApproved.design_ids = reqLinked.design_ids ∧
    reqApproved.status = .approved ∧
    reqRead (updateRequirement dbLinkedBoth ("REQ-001")
      { status := some (.val .approved) }).2 ("REQ-001") = some reqApproved := by
  obtain ⟨c1, c2, c3, c4, c5, c6, c7, c8, c9, c10, c11, c12, c13⟩ :=
    claim_C6 dbLinkedBoth ("REQ-001") { status := some (.val .approved) }
      reqLinked reqApproved (by decide) (by decide)
  exact ⟨c1 rfl, c5 rfl, c10, c11 RequirementStatus.approved rfl, c13⟩

/-! ### Claim C7 — creation round-trip and timestamp equality -/

/-- Claim C7 is false for Requirements: `create_requirement` stamps
`created_at` and `updated_at` with two separate `datetime.now()` calls
(lines 61-62), so nothing makes them equal; under the identity timeline
the created entity has `created_at = 0` and `updated_at = 1`. -/
theorem claim_C7_counterexample :
    (exceptGet? ((createRequirement (DB.init tlId) reqDataT).1)).map
      (fun r => (r.created_at, r.updated_at)) = some (0, 1) ∧
    (exceptGet? ((createRequirement (DB.init tlId) reqDataT).1)).map
      (fun r => decide (r.created_at = r.updated_at)) = some false := by
  exact ⟨by decide, by decide⟩

theorem buildRequirement_ok_shape (db : DB) (d : ReqData) (a : Requirement)
    (db1 : DB) (h : buildRequirement db d = (.ok a, db1)) :
    a.design_ids = [] ∧ a.created_at = db.timeline db.calls ∧
    a.updated_at = db.timeline (db.calls + 1) := by
  simp only [buildRequirement, DB.now] at h
  split at h
  · simp at h
  · split at h
    · simp at h
    · split at h
      · simp at h
      · simp only [Prod.mk.injEq, Except.ok.injEq] at h
        rw [← h.1]
        exact ⟨rfl, rfl, rfl⟩

theorem storeCreateReq_ok_state (db : DB) (e : Requirement) :
    exceptIsOk (storeCreateReq db e).1 = true →
    ((storeCreateReq db e).2).requirements = db.requirements ++ [e.toRow] ∧
    ((storeCreateReq db e).2).reqDesigns =
      db.reqDesigns ++ e.design_ids.map (fun x => (e.id, x)) ∧
    db.requirements.any (fun r => r.id = e.id) = false := by
  intro h
  simp only [storeCreateReq] at h ⊢
  by_cases h1 : db.requirements.any (fun r => r.id = e.id) = true
  · rw [if_pos h1] at h
    simp [exceptIsOk] at h
  · rw [if_neg h1] at h ⊢
    by_cases h2 : (hasDup e.design_ids
        ∨ e.design_ids.any (fun d => db.reqDesigns.contains (e.id, d)))
    · rw [if_pos h2] at h
      simp [exceptIsOk] at h
    · rw [if_neg h2]
      exact ⟨rfl, rfl, by simpa using h1⟩

/-- Amended claim C7: the read-back of a freshly created entity equals the
returned entity in every field (timestamps included) — for requirements
whenever no dangling join row carries the new id, for designs whenever the
fresh AUTOINCREMENT key is unused, both automatic from a fresh store.  A
Design's `created_at` and `updated_at` are equal (one `datetime.now()`
call stamps both), but a Requirement's two timestamps come from two
separate consecutive `datetime.now()` calls and are therefore the first
and second clock readings of the call, not guaranteed equal. -/
theorem claim_C7_amended :
    (∀ (db : DB) (d : ReqData) (r : Requirement),
      exceptGet? (createRequirement db d).1 = some r →
      (∀ q ∈ db.reqDesigns, ¬ q.1 = r.id) →
      reqRead (createRequirement db d).2 r.id = some r ∧
      r.created_at = db.timeline db.calls ∧
      r.updated_at = db.timeline (db.calls + 1)) ∧
    (∀ (db : DB) (n de ty st : String) (rid : Option (List String))
      (d2 : Design),
      exceptGet? (createDesign db n de ty st rid).1 = some d2 →
      d2.created_at = d2.updated_at ∧
      ((∀ x ∈ db.designs, ¬ x.id = db.seqDesign) →
        (∀ q ∈ db.designReqs, ¬ q.1 = db.seqDesign) →
        designGet (createDesign db n de ty st rid).2 db.seqDesign
          = some d2)) := by
  constructor
  · intro db d r hr hdangle
    cases hb : buildRequirement db d with
    | mk res db1 =>
      have hreq : db1.requirements = db.requirements := by
        have h0 := (buildRequirement_frame db d).1
        rw [hb] at h0
        exact h0
      have hrd : db1.reqDesigns = db.reqDesigns := by
        have h0 := (buildRequirement_frame db d).2
        rw [hb] at h0
        exact h0
      simp only [createRequirement, hb] at hr ⊢
      cases res with
      | error e => simp [exceptGet?] at hr
      | ok a =>
        dsimp only at hr ⊢
        obtain ⟨hdes, hcre, hupd⟩ := buildRequirement_ok_shape db d a db1 hb
        cases hv : validationErrors a with
        | cons e0 es =>
          try rw [hv] at hr
          simp [exceptGet?] at hr
        | nil =>
          try rw [hv] at hr
          try rw [hv]
          try dsimp only at hr ⊢
          cases hs : storeCreateReq db1 a with
          | mk res2 db2 =>
            try rw [hs] at hr
            try rw [hs]
            try dsimp only at hr ⊢
            cases res2 with
            | error e => simp [exceptGet?] at hr
            | ok v =>
              try dsimp only at hr ⊢
              simp only [exceptGet?, Option.some.injEq] at hr
              subst hr
              have hst := storeCreateReq_ok_state db1 a
              rw [hs] at hst
              obtain ⟨hrows, hlinks, hnone⟩ := hst (by simp [exceptIsOk])
              simp only [List.any_eq_false] at hnone
              refine ⟨?_, by rw [hcre], by rw [hupd]⟩
              unfold reqRead reqReadCore
              rw [hrows, hlinks, hreq, hrd, List.find?_append]
              have hpre :
                  List.find? (fun x => decide (x.id = a.id)) db.requirements
                    = none := by
                rw [List.find?_eq_none]
                intro x hx
                exact hnone x (by rw [hreq]; exact hx)
              rw [hpre]
              simp only [Option.none_or]
              rw [reqLinksOf_append]
              have hd0 : reqLinksOf db.reqDesigns a.id = [] := by
                unfold reqLinksOf
                rw [List.filter_eq_nil_iff.mpr]
                · rfl
                · intro q hq
                  simpa using hdangle q hq
              have hnil : reqLinksOf ([] : List (String × Nat)) a.id
                  = a.design_ids := by
                rw [hdes]
                rfl
              rw [hd0, hdes]
              simp [List.find?, Requirement.toRow, rowToRequirement, hnil]
  · intro db n de ty st rid d2 hr
    by_cases hdup : hasDup (rid.getD []) = true
    · simp [createDesign, DB.now, storeCreateDesign, hdup, exceptGet?] at hr
    · simp only [createDesign, DB.now, storeCreateDesign,
        hdup, Bool.false_eq_true, if_false, exceptGet?, Option.some.injEq] at hr
      constructor
      · rw [← hr]
      · intro hids hdangle
        unfold designGet designGetCore
        simp only [createDesign, DB.now, storeCreateDesign, hdup,
          Bool.false_eq_true, if_false]
        rw [List.find?_append]
        have hpre : db.designs.find? (fun x => x.id = db.seqDesign) = none := by
          rw [List.find?_eq_none]
          intro x hx
          simpa using hids x hx
        rw [hpre]
        simp only [Option.none_or]
        rw [designLinksOf_append]
        have hd0 : designLinksOf db.designReqs db.seqDesign = [] := by
          unfold designLinksOf
          rw [List.filter_eq_nil_iff.mpr]
          · rfl
          · intro q hq
            simpa using hdangle q hq
        rw [hd0, designLinksOf_map_self]
        simp [List.find?, ← hr]

/-- The design the witness run returns: first AUTOINCREMENT key, one
clock tick stamping both timestamps. -/
def designCreated1 : Design :=
  { id := some 1, name := "N", description := "Doc", type := "Component",
    status := "Draft", created_at := 0, updated_at := 0,
    requirement_ids := ["REQ-001"] }

/-- Witness for the amended claim C7 at concrete fresh stores: the created
requirement round-trips and carries ticks 0 and 1; the created design
round-trips with equal timestamps. -/
theorem claim_C7_amended_witness :
    (reqRead (createRequirement (DB.init tlId) reqDataT).2 builtTitleT.id
        = some builtTitleT ∧
      builtTitleT.created_at = (DB.init tlId).timeline (DB.init tlId).calls ∧
      builtTitleT.updated_at
        = (DB.init tlId).timeline ((DB.init tlId).calls + 1)) ∧
    (designCreated1.created_at = designCreated1.updated_at ∧
      designGet (createDesign (DB.init tlId) ("N") ("Doc") ("Component")
          ("Draft") (some [("REQ-001")])).2 (DB.init tlId).seqDesign
        = some designCreated1) := by
  refine ⟨claim_C7_amended.1 (DB.init tlId) reqDataT builtTitleT
    (by decide) (by decide), ?_⟩
  obtain ⟨h1, h2⟩ := claim_C7_amended.2 (DB.init tlId) ("N") ("Doc")
    ("Component") ("Draft") (some [("REQ-001")]) designCreated1 (by decide)
  exact ⟨h1, h2 (by decide) (by decide)⟩

/-! ### Claim C8 — design manager validation -/

/-- Claim C8 is false: `DesignManager.create_design` runs no validation at
all — creating with empty name and description succeeds and persists the
design (the only name/description presence checks live in the UI dialog). -/
theorem claim_C8_counterexample :
    (exceptGet? ((createDesign (DB.init tlId) ("") ("") ("Component")
        ("Draft") none).1)).map (fun d => (d.name, d.description))
      = some ("", "") ∧
    ((createDesign (DB.init tlId) ("") ("") ("Component") ("Draft")
        none).2).designs.length = 1 := by
  exact ⟨by decide, by decide⟩

/-- Amended claim C8: the Design manager performs no name/description
validation before persisting; every create call whose link list has no
duplicate key succeeds and appends exactly one design row, whatever the
name and description (presence validation exists only in the UI dialog
layer, outside the manager). -/
theorem claim_C8_amended :
    ∀ (db : DB) (n de ty st : String) (rid : Option (List String)),
    hasDup (rid.getD []) = false →
    exceptIsOk (createDesign db n de ty st rid).1 = true ∧
    ((createDesign db n de ty st rid).2).designs.length
      = db.designs.length + 1 := by
  intro db n de ty st rid h
  simp [createDesign, DB.now, storeCreateDesign, h, exceptIsOk]

/-- Witness for the amended claim C8: the empty-name, empty-description
create call on a fresh store succeeds and persists one row. -/
theorem claim_C8_amended_witness :
    exceptIsOk (createDesign (DB.init tlId) ("") ("") ("Component")
      ("Draft") none).1 = true ∧
    ((createDesign (DB.init tlId) ("") ("") ("Component") ("Draft")
        none).2).designs.length = (DB.init tlId).designs.length + 1 :=
  claim_C8_amended (DB.init tlId) ("") ("") ("Component") ("Draft") none
    (by decide)

/-! ### Claim C9 — who stamps timestamps -/

/-- A timeline whose k-th `now()` call returns `k + 5`, so that stamps
made before the run are visibly distinct from in-run clock reads. -/
def tl5 : Nat → Nat := fun n => n + 5

/-- The consistently linked two-entity state over the shifted timeline. -/
def dbLinkedBoth5 : DB :=
  runOps (DB.init tl5) [.dcreate designLinked, .rcreate reqLinked]

/-- Claim C9 is false: `SQLiteRequirementRepository.update` re-stamps
`entity.updated_at = datetime.now()` itself, so the persisted `updated_at`
is the store's own clock reading (5 under the shifted timeline), not the
value the entity carried when the manager delegated (0). -/
theorem claim_C9_counterexample :
    reqLinked.updated_at = 0 ∧
    (((storeUpdateReq dbLinkedBoth5 reqLinked).2).requirements.map
      (fun r => r.updated_at)) = [5] := by
  exact ⟨rfl, by decide⟩

theorem patchReq_created (e : Requirement) (r : ReqRow) :
    (patchReq e r).created_at = r.created_at := by
  unfold patchReq
  split <;> rfl

/-- Amended claim C9: no store operation ever changes an entity's
`created_at`; the design store persists exactly the timestamps stamped by
its manager (create and update); the requirement store's create persists
the manager's stamps unchanged, but its update re-stamps `updated_at`
with its own `datetime.now()` call, so for that one operation the
persisted `updated_at` is the store's clock reading, not the manager's. -/
theorem claim_C9_amended :
    (∀ (db : DB) (e : Requirement),
      exceptIsOk (storeCreateReq db e).1 = true →
      e.toRow ∈ ((storeCreateReq db e).2).requirements) ∧
    (∀ (db : DB) (e : Requirement),
      ((storeUpdateReq db e).2).requirements.map (fun r => r.created_at) =
        db.requirements.map (fun r => r.created_at)) ∧
    (∀ (db : DB) (e : Requirement) (r : ReqRow),
      exceptIsOk (storeUpdateReq db e).1 = true →
      r ∈ ((storeUpdateReq db e).2).requirements → r.id = e.id →
      r.updated_at = db.timeline db.calls) ∧
    (∀ (db : DB) (d : Design),
      ((storeUpdateDesign db d).2).designs.map (fun x => x.created_at) =
        db.designs.map (fun x => x.created_at)) ∧
    (∀ (db : DB) (d : Design) (i : Nat) (x : DesignRow),
      d.id = some i →
      exceptIsOk (storeUpdateDesign db d).1 = true →
      x ∈ ((storeUpdateDesign db d).2).designs → x.id = i →
      x.updated_at = d.updated_at) ∧
    (∀ (db : DB) (d d2 : Design),
      exceptGet? (storeCreateDesign db d).1 = some d2 →
      d2.created_at = d.created_at ∧ d2.updated_at = d.updated_at) := by
  refine ⟨?_, ?_, ?_, ?_, ?_, ?_⟩
  · intro db e h
    rw [(storeCreateReq_ok_state db e h).1]
    simp
  · intro db e
    by_cases hnd : hasDup e.design_ids = true
    · simp [storeUpdateReq, hnd]
    · simp only [storeUpdateReq, hnd, Bool.false_eq_true, if_false]
      rw [List.map_map]
      apply List.map_congr_left
      intro x _
      simpa using patchReq_created _ x
  · intro db e r hok hmem hid
    by_cases hnd : hasDup e.design_ids = true
    · simp [storeUpdateReq, hnd, exceptIsOk] at hok
    · simp only [storeUpdateReq, hnd, Bool.false_eq_true, if_false] at hmem
      rw [List.mem_map] at hmem
      obtain ⟨y, hy, hpy⟩ := hmem
      by_cases hyid : y.id = e.id
      · rw [← hpy]
        unfold patchReq
        rw [if_pos (by simpa using hyid)]
      · exfalso
        apply hyid
        rw [← hpy] at hid
        unfold patchReq at hid
        rw [if_neg (by simpa using hyid)] at hid
        exact hid
  · intro db d
    cases hdid : d.id with
    | none =>
      simp only [storeUpdateDesign, hdid]
      split <;> rfl
    | some i =>
      by_cases hnd : hasDup d.requirement_ids = true
      · simp [storeUpdateDesign, hdid, hnd]
      · simp only [storeUpdateDesign, hdid, hnd, Bool.false_eq_true, if_false]
        rw [List.map_map]
        apply List.map_congr_left
        intro x _
        by_cases hx : x.id = i <;> simp [hx]
  · intro db d i x hdid hok hmem hid
    by_cases hnd : hasDup d.requirement_ids = true
    · simp [storeUpdateDesign, hdid, hnd, exceptIsOk] at hok
    · simp only [storeUpdateDesign, hdid, hnd, Bool.false_eq_true,
        if_false] at hmem
      rw [List.mem_map] at hmem
      obtain ⟨y, hy, hpy⟩ := hmem
      by_cases hyid : y.id = i
      · rw [← hpy]
        rw [if_pos (by simpa using hyid)]
      · exfalso
        apply hyid
        rw [← hpy] at hid
        rw [if_neg (by simpa using hyid)] at hid
        exact hid
  · intro db d d2 hr
    by_cases hdup : hasDup d.requirement_ids = true
    · simp [storeCreateDesign, hdup, exceptGet?] at hr
    · simp only [storeCreateDesign, hdup, Bool.false_eq_true, if_false,
        exceptGet?, Option.some.injEq] at hr
      rw [← hr]
      exact ⟨rfl, rfl⟩

/-- Witness for the amended claim C9: the requirement create persists the
stamped row verbatim, and the design create returns its timestamps
unchanged. -/
theorem claim_C9_amended_witness :
    reqLinked.toRow ∈ ((storeCreateReq (DB.init tlId) reqLinked).2).requirements ∧
    ({ designD0 with id := some 1 } : Design).created_at
      = designD0.created_at := by
  refine ⟨claim_C9_amended.1 (DB.init tlId) reqLinked (by decide), ?_⟩
  exact (claim_C9_amended.2.2.2.2.2 (DB.init tlId) designD0
    { designD0 with id := some 1 } (by decide)).1

/-! ### Claim C10 — the requirement manager never touches trace links -/

/-- Claim C10: the manager's create ignores any `design_ids` entry in the
payload (the result is identical whatever that slot holds), returns an
entity with an empty link set and writes no join row; update preserves the
link set exactly as read, both in the returned entity and in the stored
join rows. -/
theorem claim_C10 :
    (∀ (db : DB) (d : ReqData) (x : Option (List Nat)),
      createRequirement db { d with design_ids := x }
        = createRequirement db d) ∧
    (∀ (db : DB) (d : ReqData) (r : Requirement),
      exceptGet? (createRequirement db d).1 = some r →
      r.design_ids = [] ∧
      ((createRequirement db d).2).reqDesigns = db.reqDesigns) ∧
    (∀ (db : DB) (req_id : String) (d : ReqData) (p r : Requirement),
      reqRead db req_id = some p →
      exceptGet? (updateRequirement db req_id d).1 = some r →
      r.design_ids = p.design_ids ∧
      reqLinksOf ((updateRequirement db req_id d).2).reqDesigns req_id
        = p.design_ids) := by
  refine ⟨?_, ?_, ?_⟩
  · intro db d x
    cases d
    rfl
  · intro db d r hr
    cases hb : buildRequirement db d with
    | mk res db1 =>
      have hrd : db1.reqDesigns = db.reqDesigns := by
        have h0 := (buildRequirement_frame db d).2
        rw [hb] at h0
        exact h0
      simp only [createRequirement, hb] at hr ⊢
      cases res with
      | error e => simp [exceptGet?] at hr
      | ok a =>
        dsimp only at hr ⊢
        obtain ⟨hdes, _, _⟩ := buildRequirement_ok_shape db d a db1 hb
        cases hv : validationErrors a with
        | cons e0 es =>
          try rw [hv] at hr
          simp [exceptGet?] at hr
        | nil =>
          try rw [hv] at hr
          try rw [hv]
          try dsimp only at hr ⊢
          cases hs : storeCreateReq db1 a with
          | mk res2 db2 =>
            try rw [hs] at hr
            try rw [hs]
            try dsimp only at hr ⊢
            cases res2 with
            | error e => simp [exceptGet?] at hr
            | ok v =>
              try dsimp only at hr ⊢
              simp only [exceptGet?, Option.some.injEq] at hr
              subst hr
              have hst := storeCreateReq_ok_state db1 a
              rw [hs] at hst
              obtain ⟨_, hlinks, _⟩ := hst (by simp [exceptIsOk])
              refine ⟨hdes, ?_⟩
              rw [hlinks, hdes, hrd]
              simp
  · intro db req_id d p r hp hr
    simp only [updateRequirement, hp, DB.now] at hr ⊢
    cases hm : mergeReqData p d with
    | error e =>
      try rw [hm] at hr
      simp [exceptGet?] at hr
    | ok m =>
      rw [hm] at hr
      try dsimp only at hr ⊢
      obtain ⟨hmid, _, _, hmdes, _, _, _, _, _, _, _, _, _⟩ :=
        mergeReqData_ok_fields p d m hm
      cases hv : validationErrors { m with updated_at := db.timeline db.calls } with
      | cons e0 es =>
        try rw [hv] at hr
        simp [exceptGet?] at hr
      | nil =>
        try rw [hv] at hr
        try rw [hv]
        try dsimp only at hr ⊢
        cases hs : storeUpdateReq { db with calls := db.calls + 1 }
            { m with updated_at := db.timeline db.calls } with
        | mk res2 db2 =>
          try rw [hs] at hr
          try rw [hs]
          try dsimp only at hr ⊢
          cases res2 with
          | error e => simp [exceptGet?] at hr
          | ok br =>
            try dsimp only at hr ⊢
            simp only [exceptGet?, Option.some.injEq] at hr
            obtain ⟨hbr, _, hlinks, _, _, _⟩ :=
              storeUpdateReq_ok_result _ _ _ _ hs
            have hpid : p.id = req_id := by
              have hp2 := hp
              unfold reqRead reqReadCore at hp2
              cases hf : db.requirements.find? (fun q => q.id = req_id) with
              | none =>
                rw [hf] at hp2
                simp at hp2
              | some row =>
                rw [hf] at hp2
                simp only [Option.some.injEq] at hp2
                have hrowid : row.id = req_id := by
                  have h0 := List.find?_some hf
                  simpa using h0
                rw [← hp2]
                simpa [rowToRequirement] using hrowid
            constructor
            · rw [← hr, hbr]
              simpa using hmdes
            · rw [hlinks]
              have hmid2 : req_id
                  = ({ m with updated_at := db.timeline db.calls } :
                      Requirement).id := by
                simp [hmid, hpid.symm]
              rw [hmid2, reqLinksOf_keep_insert]
              simpa using hmdes

/-- Witness for claim C10 at concrete inputs: a fresh create returns an
empty link set and writes no join rows; the status-only update of linked
`REQ-001` keeps its link set in both the returned entity and the table. -/
theorem claim_C10_witness :
    (builtTitleT.design_ids = [] ∧
      ((createRequirement (DB.init tlId) reqDataT).2).reqDesigns
        = (DB.init tlId).reqDesigns) ∧
    (reqApproved.design_ids = reqLinked.design_ids ∧
      reqLinksOf ((updateRequirement dbLinkedBoth ("REQ-001")
          { status := some (.val .approved) }).2).reqDesigns ("REQ-001")
        = reqLinked.design_ids) := by
  exact ⟨claim_C10.2.1 (DB.init tlId) reqDataT builtTitleT (by decide),
    claim_C10.2.2 dbLinkedBoth ("REQ-001") { status := some (.val .approved) }
      reqLinked reqApproved (by decide) (by decide)⟩

end DragonAlm
